import Mathlib

/-!
Shallow embedding of `scripts/west_commands/runners/stlink_gdbserver.py`
(the ST-LINK GDB server runner).  Pure helpers of the runner become Lean
functions; the filesystem and executable lookup are passed in as explicit
predicates (`fs`, `which`); fallible code returns `Except RunnerError`.
The command plan produced by `do_attach_debug_debugserver` records the
debug-server argument list and, when a debugger client is spawned, the
client argument list.
-/

namespace StlinkGdbServer

/-- The three west commands accepted by `do_run` / `do_attach_debug_debugserver`:
`attach`, `debug` and `debugserver` (the session intents Attach, DebugNew,
ServerOnly). -/
inductive Command where
  | attach
  | debug
  | debugserver
deriving DecidableEq, Repr

/-- The abort conditions raised on the `do_attach_debug_debugserver` path:
`MissingProgram` models `self.require` / the locator's failure,
`MCUBootElfNotFound` the `RuntimeError` of `_find_mcuboot_elf`,
`ExternalLoaderNotFound` the `RuntimeError` for a missing external loader,
and `GDBRequired` the `RuntimeError` when `self.cfg.gdb is None`. -/
inductive RunnerError where
  | MissingProgram (name : String)
  | MCUBootElfNotFound
  | ExternalLoaderNotFound (name : String)
  | GDBRequired
deriving DecidableEq, Repr

/-- The slice of `RunnerConfig` consumed by this runner: the ELF path
(`cfg.elf_file`, already in posix form), the build directory and the
optional GDB client path (`cfg.gdb`). -/
structure RunnerConfig where
  elf_file : String
  build_dir : String
  gdb : Option String
deriving DecidableEq, Repr

/-- The fields stored by `STLinkGDBServerRunner.__init__` (raw constructor
arguments; `_mcuboot_offset`'s `or '0x08040000'` defaulting is
`mcubootOffsetValue` below). -/
structure RunnerState where
  swd : Bool
  ap_id : Int
  stlink_serial : Option String
  gdb_port : Nat
  external_loader : Option String
  do_external_init : Bool
  two_boot_stage : Bool
  mcuboot_offset : Option String
deriving DecidableEq, Repr

/-- Line 163: `self._mcuboot_offset = mcuboot_offset or '0x08040000'`;
Python truthiness, so `None` and the empty string both fall back to the
default. -/
def mcubootOffsetValue (mcuboot_offset : Option String) : String :=
  match mcuboot_offset with
  | none => "0x08040000"
  | some s => if s = "" then "0x08040000" else s

/-- Result of one invocation: the debug-server argument list, and the
debugger-client argument list when a client process is spawned
(`none` for the `debugserver` command, which only runs `check_call` on the
server). -/
structure Plan where
  gdbserver_cmd : List String
  gdb_cmd : Option (List String)
deriving DecidableEq, Repr

deriving instance DecidableEq for Except

/-! ## Toolchain locator: `find_highest_clt_version` -/

/-- One parsed `stm32cubeclt_MAJOR.MINOR.PATCH` directory entry, in the
order produced by the regex scan (`m[1]`, `m[2]`, `m[3]` and the path). -/
structure Installation where
  major : Nat
  minor : Nat
  revis : Nat
  path : String
deriving DecidableEq, Repr

/-- Line 44: `ver_num = major * 1000000 + minor * 1000 + revis`. -/
def ver_num (major minor revis : Nat) : Nat :=
  major * 1000000 + minor * 1000 + revis

/-- The comparison key of one installation. -/
def instKey (i : Installation) : Nat :=
  ver_num i.major i.minor i.revis

/-- One step of selecting the most recent installation.  The source sorts
by key descending with Python's stable sort and takes element 0, which is
the earliest entry of maximal key; a left fold keeping the strictly
greater candidate computes the same element. -/
def pickNewer (best e : Installation) : Installation :=
  if instKey e > instKey best then e else best

/-- Source function `find_highest_clt_version`, modelled on the already-parsed regex
matches (lines 37-52): empty scan gives `None`, otherwise the entry with
the maximal `ver_num` (earliest on ties, per the stable descending sort). -/
def find_highest_clt_version (installations : List Installation) : Option Installation :=
  match installations with
  | [] => none
  | i :: rest => some (rest.foldl pickNewer i)

/-- The spec's version order: lexicographic on (MAJOR, MINOR, PATCH). -/
def versionLt (M1 m1 p1 M2 m2 p2 : Nat) : Prop :=
  M1 < M2 ∨ (M1 = M2 ∧ (m1 < m2 ∨ (m1 = m2 ∧ p1 < p2)))

instance : ∀ M1 m1 p1 M2 m2 p2, Decidable (versionLt M1 m1 p1 M2 m2 p2) := by
  intro M1 m1 p1 M2 m2 p2
  unfold versionLt
  infer_instance

/-! ## Entry-point reading: `_get_start_address` -/

/-- Value of one hexadecimal digit, upper or lower case. -/
def hexDigitVal (c : Char) : Option Nat :=
  if '0' ≤ c ∧ c ≤ '9' then some (c.toNat - '0'.toNat)
  else if 'a' ≤ c ∧ c ≤ 'f' then some (c.toNat - 'a'.toNat + 10)
  else if 'A' ≤ c ∧ c ≤ 'F' then some (c.toNat - 'A'.toNat + 10)
  else none

/-- Fold a list of hex digits; `none` on any non-digit. -/
def parseHexDigits : List Char → Nat → Option Nat
  | [], acc => some acc
  | c :: cs, acc =>
    match hexDigitVal c with
    | none => none
    | some v => parseHexDigits cs (acc * 16 + v)

/-- Model of Python `int(s, 16)` on the strings that occur here: an
optional `0x`/`0X` prefix followed by at least one hex digit; anything
else is a parse failure (raising `ValueError` in the source, caught by the
surrounding `except`). -/
def parseHexNat (s : String) : Option Nat :=
  let s1 := if s.startsWith "0x" ∨ s.startsWith "0X" then s.drop 2 else s
  if s1.length = 0 then none else parseHexDigits s1.toList 0

/-- Evaluation of `line.split(':')[1].strip()` followed by `int(_, 16)`; any exception
(missing index, bad literal) is caught by `_get_start_address` and yields
the fallthrough value 0. -/
def entryFromLine (line : String) : Nat :=
  match (line.splitOn ":").drop 1 with
  | [] => 0
  | part :: _ =>
    match parseHexNat part.trim with
    | none => 0
    | some n => n

/-- Does the line contain the substring `Entry point address`?  (Encoded
via `splitOn`: a substring occurs iff splitting on it yields more than one
piece.) -/
def entryPointLine (line : String) : Bool :=
  (line.splitOn "Entry point address").length ≥ 2

/-- Source method `_get_start_address` (lines 171-192), over the stdout of the
`arm-none-eabi-readelf -h` subprocess: `none` models a failed subprocess
(exception caught, returns 0); otherwise the first line containing
`Entry point address` is parsed, a parse failure again giving 0, and 0 is
returned when no line matches. -/
def get_start_address (readelf_stdout : Option String) : Nat :=
  match readelf_stdout with
  | none => 0
  | some out =>
    match (out.splitOn "\n").find? (fun line => entryPointLine line) with
    | none => 0
    | some line => entryFromLine line

/-! ## Boot-mode classification -/

/-- Source method `_is_fsbl_mode` (lines 194-196): `(start_address & 0xFFFF0000) == 0x34180000`. -/
def is_fsbl_mode (start_address : Nat) : Bool :=
  start_address &&& 0xFFFF0000 == 0x34180000

/-- Source method `_is_ram_mode` (lines 197-200): `0x34000000 <= start_address < 0x34180000`. -/
def is_ram_mode (start_address : Nat) : Bool :=
  decide (0x34000000 ≤ start_address ∧ start_address < 0x34180000)

/-- The four execution modes of the planner. -/
inductive ExecutionMode where
  | FSBL
  | RAM
  | FlashChained
  | Unknown
deriving DecidableEq, Repr

/-- The mode concept implicit in the branch structure of
`do_attach_debug_debugserver` (lines 309-310 and 330): the FSBL and RAM
flags are computed by `_is_fsbl_mode` / `_is_ram_mode` (provably
disjoint), and the chained branch fires exactly when neither holds and
the SoC family is `STM32N6`. -/
def classify (start_address : Nat) (soc : String) : ExecutionMode :=
  if is_fsbl_mode start_address then ExecutionMode.FSBL
  else if is_ram_mode start_address then ExecutionMode.RAM
  else if soc = "STM32N6" then ExecutionMode.FlashChained
  else ExecutionMode.Unknown

/-- Modelled from the spec: the ordered first-match classification policy
of section 4.2, stated in the spec's own terms, for comparison with
`classify`. -/
def classifySpec (entryPointAddress : Nat) (socFamily : String) : ExecutionMode :=
  if entryPointAddress &&& 0xFFFF0000 = 0x34180000 then ExecutionMode.FSBL
  else if 0x34000000 ≤ entryPointAddress ∧ entryPointAddress < 0x34180000 then ExecutionMode.RAM
  else if socFamily = "STM32N6" then ExecutionMode.FlashChained
  else ExecutionMode.Unknown

/-! ## Plan construction: `do_attach_debug_debugserver` -/

/-- The connect command `f"target remote :{self._gdb_port}"` of line 314. -/
def targetRemoteCmd (gdb_port : Nat) : String :=
  "target remote :" ++ toString gdb_port

/-- Model of `Path(build_dir).parent`, for the normalized slash-separated paths
used here: everything before the last separator. -/
def parentDir (p : String) : String :=
  let comps := p.splitOn "/"
  if comps.length ≤ 1 then "." else String.intercalate "/" comps.dropLast

/-- Source method `_find_mcuboot_elf` (lines 232-249): probe
`build_dir/mcuboot/zephyr/zephyr.elf`, then the same under the parent of
`build_dir`; raise (here: `MCUBootElfNotFound`) when both are absent. -/
def find_mcuboot_elf (fs : String → Bool) (build_dir : String) : Except RunnerError String :=
  let mcuboot_elf := build_dir ++ "/mcuboot/zephyr/zephyr.elf"
  if fs mcuboot_elf then Except.ok mcuboot_elf
  else
    let mcuboot_elf_alt := parentDir build_dir ++ "/mcuboot/zephyr/zephyr.elf"
    if fs mcuboot_elf_alt then Except.ok mcuboot_elf_alt
    else Except.error RunnerError.MCUBootElfNotFound

/-- Lines 317-324: the unconditional head of `gdbserver_cmd`
(`cubeprg_path` stands for `str(cubeprg_path.absolute())`, i.e. the
directory is taken to be absolute already), plus `--swd` when SWD mode is
enabled. -/
def baseServerCmd (gdbserver_path cubeprg_path : String) (st : RunnerState) : List String :=
  [gdbserver_path,
   "--stm32cubeprogrammer-path", cubeprg_path,
   "--port-number", toString st.gdb_port,
   "--apid", toString st.ap_id,
   "--halt"]
  ++ (if st.swd then ["--swd"] else [])

/-- Lines 359-360: `--serial-number` when `self._stlink_serial` is truthy. -/
def serialFlags (st : RunnerState) : List String :=
  match st.stlink_serial with
  | none => []
  | some s => if s = "" then [] else ["--serial-number", s]

/-- Lines 362-369: external-loader handling.  A truthy
`self._external_loader` is resolved under `cubeprg_path/ExternalLoader`;
a missing path raises (here: `ExternalLoaderNotFound`), otherwise the
optional `--external-init` and the `--extload` pair are appended. -/
def extloadFlags (fs : String → Bool) (cubeprg_path : String) (st : RunnerState) :
    Except RunnerError (List String) :=
  match st.external_loader with
  | none => Except.ok []
  | some name =>
    if name = "" then Except.ok []
    else
      let extldr_path := cubeprg_path ++ "/ExternalLoader/" ++ name
      if fs extldr_path then
        Except.ok ((if st.do_external_init then ["--external-init"] else [])
                   ++ ["--extload", extldr_path])
      else Except.error (RunnerError.ExternalLoaderNotFound name)

/-- Lines 342-353: the inline `-ex` script of the STM32N6 two-boot-stage
branch, ending with the MCUboot ELF as the symbol file GDB starts from. -/
def mcubootGdbArgs (gdb_port : Nat) (elf_path mcuboot_elf : String) : List String :=
  ["-ex", targetRemoteCmd gdb_port,
   "-ex", "load",
   "-ex", "hbreak boot_go",
   "-ex", "continue",
   "-ex", "set confirm off",
   "-ex", "add-symbol-file " ++ elf_path,
   "-ex", "set confirm on",
   "-ex", "break main",
   "-ex", "continue",
   mcuboot_elf]

/-- Lines 314 and 326-357: the `(command, mode)` branch.  Returns the
flags this branch adds to `gdbserver_cmd` and the final `gdb_args`.
`attach` keeps the default `gdb_args` and adds `--attach`; otherwise the
STM32N6 chained branch (`not is_fsbl and not is_ram and soc == 'STM32N6'`)
adds `--attach` and replaces `gdb_args` with the two-phase script after
locating the MCUboot ELF; all remaining cases add `--initialize-reset`
and append the `load` command. -/
def branchCmds (fs : String → Bool) (soc : String) (start_address : Nat)
    (cfg : RunnerConfig) (st : RunnerState) (command : Command) :
    Except RunnerError (List String × List String) :=
  let elf_path := cfg.elf_file
  if command = Command.attach then
    Except.ok (["--attach"], ["-ex", targetRemoteCmd st.gdb_port, elf_path])
  else if !is_fsbl_mode start_address && !is_ram_mode start_address && soc == "STM32N6" then
    match find_mcuboot_elf fs cfg.build_dir with
    | Except.error e => Except.error e
    | Except.ok mcuboot_elf =>
      Except.ok (["--attach"], mcubootGdbArgs st.gdb_port elf_path mcuboot_elf)
  else
    Except.ok (["--initialize-reset"],
               ["-ex", targetRemoteCmd st.gdb_port, elf_path, "-ex", "load " ++ elf_path])

/-- Lines 371-380, factored out: `self.require(gdbserver_cmd[0])`, then
the `debugserver` / `attach` / `debug` dispatch: `debugserver` only
`check_call`s the server; the other two require `self.cfg.gdb`, require
it on the path, and hand the pair to `run_server_and_client`. -/
def finishPlan (which : String → Bool) (gdbserver_path : String) (cfg : RunnerConfig)
    (command : Command) (gdbserver_cmd gdb_args : List String) :
    Except RunnerError Plan :=
  if which gdbserver_path then
    if command = Command.debugserver then
      Except.ok { gdbserver_cmd := gdbserver_cmd, gdb_cmd := none }
    else
      match cfg.gdb with
      | none => Except.error RunnerError.GDBRequired
      | some gdb =>
        if which gdb then
          Except.ok { gdbserver_cmd := gdbserver_cmd, gdb_cmd := some (gdb :: gdb_args) }
        else Except.error (RunnerError.MissingProgram gdb)
  else Except.error (RunnerError.MissingProgram gdbserver_path)

/-- Source method `do_attach_debug_debugserver` (lines 297-380), with the SoC family and
entry address (the results of `_get_stm32_soc` / `_get_start_address`)
passed in, `fs` the path-existence predicate and `which` the executable
lookup used by `self.require`. -/
def do_attach_debug_debugserver (fs which : String → Bool) (soc : String)
    (start_address : Nat) (gdbserver_path cubeprg_path : String)
    (cfg : RunnerConfig) (st : RunnerState) (command : Command) :
    Except RunnerError Plan :=
  match branchCmds fs soc start_address cfg st command with
  | Except.error e => Except.error e
  | Except.ok (modeFlags, gdb_args) =>
    match extloadFlags fs cubeprg_path st with
    | Except.error e => Except.error e
    | Except.ok extFlags =>
      finishPlan which gdbserver_path cfg command
        (baseServerCmd gdbserver_path cubeprg_path st ++ modeFlags ++ serialFlags st ++ extFlags)
        gdb_args

/-- The debugger-command directives of a client argument list: the strings
following each `-ex` flag. -/
def exCommands : List String → List String
  | [] => []
  | [_] => []
  | a :: c :: rest => if a = "-ex" then c :: exCommands rest else exCommands (c :: rest)

/-! ## Concrete fixtures shared by the evaluations below -/

/-- Runner state with every option at its parser default
(`--swd` true, apid 0, port 61234, nothing else configured). -/
def stDefault : RunnerState :=
  { swd := true, ap_id := 0, stlink_serial := none, gdb_port := 61234,
    external_loader := none, do_external_init := false,
    two_boot_stage := false, mcuboot_offset := none }

/-- A concrete runner configuration. -/
def cfgDefault : RunnerConfig :=
  { elf_file := "app.elf", build_dir := "build", gdb := some "gdb" }

/-- Filesystem / executable lookup where every path resolves. -/
def fsAll : String → Bool := fun _ => true

/-- Filesystem where no path exists. -/
def fsNone : String → Bool := fun _ => false

/-- Filesystem holding exactly the sysbuild MCUboot ELF. -/
def fsMcuboot : String → Bool := fun p => p == "build/mcuboot/zephyr/zephyr.elf"

/-! ## Supporting lemmas -/

theorem land_high16 (h m k : Nat) (hk : k < 65536) :
    (65536 * h + k) &&& (65536 * m) = 65536 * (h &&& m) := by
  have hk16 : k < 2 ^ 16 := by omega
  have hz : (0 : Nat) < 2 ^ 16 := by positivity
  apply Nat.eq_of_testBit_eq
  intro i
  rw [show (65536 * h + k) = 2 ^ 16 * h + k by norm_num,
      show (65536 * m) = 2 ^ 16 * m + 0 by norm_num,
      show (65536 * (h &&& m)) = 2 ^ 16 * (h &&& m) + 0 by norm_num,
      Nat.testBit_and, Nat.testBit_mul_pow_two_add h hk16 i,
      Nat.testBit_mul_pow_two_add m hz i,
      Nat.testBit_mul_pow_two_add (h &&& m) hz i]
  by_cases hi : i < 16
  · simp [hi]
  · simp [hi, Nat.testBit_and]

/-- Every address whose upper half-word is `0x3418` satisfies
`_is_fsbl_mode`. -/
theorem is_fsbl_mode_of_range (a : Nat) (h1 : 0x34180000 ≤ a) (h2 : a ≤ 0x3418FFFF) :
    is_fsbl_mode a = true := by
  have e : a = 65536 * 0x3418 + (a - 0x34180000) := by omega
  have hk : a - 0x34180000 < 65536 := by omega
  unfold is_fsbl_mode
  rw [e, show (0xFFFF0000 : Nat) = 65536 * 0xFFFF by norm_num, land_high16 _ _ _ hk]
  decide

/-- The FSBL and RAM windows are disjoint: an address inside the FSBL
mask window is at least `0x34180000`, hence outside the RAM range. -/
theorem fsbl_ram_disjoint (a : Nat) (h : is_fsbl_mode a = true) : is_ram_mode a = false := by
  unfold is_fsbl_mode at h
  unfold is_ram_mode
  rw [beq_iff_eq] at h
  have hle : a &&& 0xFFFF0000 ≤ a := Nat.and_le_left
  rw [h] at hle
  simp only [decide_eq_false_iff_not]
  omega

/-- The chained-boot guard of `do_attach_debug_debugserver` (line 330)
agrees with `classify` returning `FlashChained`. -/
theorem classify_flashChained_iff (a : Nat) (soc : String) :
    classify a soc = ExecutionMode.FlashChained
      ↔ (!is_fsbl_mode a && !is_ram_mode a && (soc == "STM32N6")) = true := by
  unfold classify
  by_cases h1 : is_fsbl_mode a <;> by_cases h2 : is_ram_mode a <;>
    by_cases h3 : soc = "STM32N6" <;> simp [h1, h2, h3]

theorem pickNewer_cases (i j : Installation) : pickNewer i j = i ∨ pickNewer i j = j := by
  unfold pickNewer
  split
  · right; rfl
  · left; rfl

theorem instKey_le_pickNewer_left (i j : Installation) :
    instKey i ≤ instKey (pickNewer i j) := by
  unfold pickNewer
  split <;> omega

theorem instKey_le_pickNewer_right (i j : Installation) :
    instKey j ≤ instKey (pickNewer i j) := by
  unfold pickNewer
  split <;> omega

theorem foldl_pickNewer_mem (l : List Installation) (i : Installation) :
    l.foldl pickNewer i = i ∨ l.foldl pickNewer i ∈ l := by
  induction l generalizing i with
  | nil => left; rfl
  | cons j t ih =>
    rw [List.foldl_cons]
    rcases ih (pickNewer i j) with h | h
    · rcases pickNewer_cases i j with hc | hc
      · left; rw [h, hc]
      · right; rw [h, hc]; exact List.mem_cons_self _ _
    · right; exact List.mem_cons_of_mem _ h

theorem instKey_le_foldl (l : List Installation) (i : Installation) :
    instKey i ≤ instKey (l.foldl pickNewer i) := by
  induction l generalizing i with
  | nil => exact Nat.le_refl _
  | cons j t ih =>
    rw [List.foldl_cons]
    exact Nat.le_trans (instKey_le_pickNewer_left i j) (ih (pickNewer i j))

theorem instKey_mem_le_foldl (l : List Installation) (i j : Installation) (hj : j ∈ l) :
    instKey j ≤ instKey (l.foldl pickNewer i) := by
  induction l generalizing i with
  | nil => cases hj
  | cons a t ih =>
    rw [List.foldl_cons]
    rcases List.mem_cons.mp hj with h | h
    · rw [h]
      exact Nat.le_trans (instKey_le_pickNewer_right i a) (instKey_le_foldl t _)
    · exact ih _ h

theorem exCommands_cons_ex (c : String) (rest : List String) :
    exCommands ("-ex" :: c :: rest) = c :: exCommands rest := by
  cases rest <;> simp [exCommands]

theorem exCommands_single (s : String) : exCommands [s] = [] := rfl

/-- A truthy but missing external loader makes `extloadFlags` raise
`ExternalLoaderNotFound`. -/
theorem extloadFlags_error (fs : String → Bool) (cp : String) (st : RunnerState)
    (name : String) (hname : st.external_loader = some name) (hne : name ≠ "")
    (hmiss : fs (cp ++ "/ExternalLoader/" ++ name) = false) :
    extloadFlags fs cp st = Except.error (RunnerError.ExternalLoaderNotFound name) := by
  unfold extloadFlags
  rw [hname]
  simp [hne, hmiss]

/-- The `(command, mode)` branch only ever contributes `--attach` or
`--initialize-reset` to the server command. -/
theorem branchCmds_modeFlags (fs : String → Bool) (soc : String) (start_address : Nat)
    (cfg : RunnerConfig) (st : RunnerState) (command : Command)
    (mf ga : List String)
    (h : branchCmds fs soc start_address cfg st command = Except.ok (mf, ga)) :
    mf = ["--attach"] ∨ mf = ["--initialize-reset"] := by
  unfold branchCmds at h
  split at h
  · left
    injection h with h
    exact congrArg Prod.fst h.symm
  · split at h
    · cases hm : find_mcuboot_elf fs cfg.build_dir with
      | error e => rw [hm] at h; cases h
      | ok m =>
        rw [hm] at h
        left
        injection h with h
        exact congrArg Prod.fst h.symm
    · right
      injection h with h
      exact congrArg Prod.fst h.symm

/-- When the branch cannot fail (any intent/mode except a chained branch
whose MCUboot lookup fails), `branchCmds` succeeds. -/
theorem branchCmds_isOk (fs : String → Bool) (soc : String) (start_address : Nat)
    (cfg : RunnerConfig) (st : RunnerState) (command : Command)
    (h : command = Command.attach
        ∨ is_fsbl_mode start_address = true
        ∨ is_ram_mode start_address = true
        ∨ soc ≠ "STM32N6"
        ∨ ∃ m, find_mcuboot_elf fs cfg.build_dir = Except.ok m) :
    ∃ pr, branchCmds fs soc start_address cfg st command = Except.ok pr := by
  unfold branchCmds
  by_cases hc : command = Command.attach
  · exact ⟨_, by rw [if_pos hc]⟩
  · rw [if_neg hc]
    by_cases hg : (!is_fsbl_mode start_address && !is_ram_mode start_address
        && (soc == "STM32N6")) = true
    · rw [if_pos hg]
      simp only [Bool.and_eq_true, Bool.not_eq_true', beq_iff_eq] at hg
      obtain ⟨⟨hf, hr⟩, hs⟩ := hg
      rcases h with h | h | h | h | ⟨m, hm⟩
      · exact absurd h hc
      · rw [h] at hf; cases hf
      · rw [h] at hr; cases hr
      · exact absurd hs h
      · rw [hm]; exact ⟨_, rfl⟩
    · rw [if_neg hg]
      exact ⟨_, rfl⟩

/-- Every plan accepted by `finishPlan` carries the given server command,
and a client command exactly for the non-`debugserver` intents. -/
theorem finishPlan_ok (which : String → Bool) (gp : String) (cfg : RunnerConfig)
    (command : Command) (cmd args : List String) (p : Plan)
    (h : finishPlan which gp cfg command cmd args = Except.ok p) :
    p.gdbserver_cmd = cmd
    ∧ ((command = Command.debugserver ∧ p.gdb_cmd = none)
       ∨ (command ≠ Command.debugserver
          ∧ ∃ gdb, cfg.gdb = some gdb ∧ p.gdb_cmd = some (gdb :: args))) := by
  unfold finishPlan at h
  by_cases hw : which gp = true
  · rw [if_pos hw] at h
    by_cases hd : command = Command.debugserver
    · rw [if_pos hd] at h
      injection h with h
      subst h
      exact ⟨rfl, Or.inl ⟨hd, rfl⟩⟩
    · rw [if_neg hd] at h
      cases hg : cfg.gdb with
      | none => rw [hg] at h; cases h
      | some gdb =>
        rw [hg] at h
        dsimp only at h
        by_cases hw2 : which gdb = true
        · rw [if_pos hw2] at h
          injection h with h
          subst h
          exact ⟨rfl, Or.inr ⟨hd, gdb, rfl, rfl⟩⟩
        · rw [if_neg hw2] at h; cases h
  · rw [if_neg hw] at h; cases h

/-- Shape of every successfully produced plan: the server command is the
base flags, the branch flag, the serial flags and the external-loader
flags in that order; `debugserver` carries no client command, the other
two commands carry the configured GDB followed by the branch's
`gdb_args`. -/
theorem do_ok_shape (fs which : String → Bool) (soc : String) (start_address : Nat)
    (gp cp : String) (cfg : RunnerConfig) (st : RunnerState) (command : Command) (p : Plan)
    (h : do_attach_debug_debugserver fs which soc start_address gp cp cfg st command
        = Except.ok p) :
    ∃ mf ga ext,
      branchCmds fs soc start_address cfg st command = Except.ok (mf, ga)
      ∧ extloadFlags fs cp st = Except.ok ext
      ∧ p.gdbserver_cmd = baseServerCmd gp cp st ++ mf ++ serialFlags st ++ ext
      ∧ ((command = Command.debugserver ∧ p.gdb_cmd = none)
         ∨ (command ≠ Command.debugserver
            ∧ ∃ gdb, cfg.gdb = some gdb ∧ p.gdb_cmd = some (gdb :: ga))) := by
  unfold do_attach_debug_debugserver at h
  cases hb : branchCmds fs soc start_address cfg st command with
  | error e => rw [hb] at h; cases h
  | ok pr =>
    obtain ⟨mf, ga⟩ := pr
    rw [hb] at h
    cases he : extloadFlags fs cp st with
    | error e => rw [he] at h; cases h
    | ok ext =>
      rw [he] at h
      dsimp only at h
      obtain ⟨hcmd, hrest⟩ := finishPlan_ok _ _ _ _ _ _ _ h
      exact ⟨mf, ga, ext, rfl, rfl, hcmd, hrest⟩

/-! ## Claims -/

/-- C1: boot-mode classification is the ordered first-match policy over
(entryPointAddress, socFamily): FSBL when the masked address equals
`0x34180000` (for every family), else RAM in `[0x34000000, 0x34180000)`,
else FlashChained for SoC family STM32N6, else Unknown; every address in
`[0x34180000, 0x3418FFFF]` is FSBL for every family, and `0x08040000` is
FlashChained with STM32N6 but Unknown with STM32F4. -/
theorem c1_boot_mode_classification :
    (∀ a soc, classify a soc = classifySpec a soc)
    ∧ (∀ a soc, 0x34180000 ≤ a → a ≤ 0x3418FFFF → classify a soc = ExecutionMode.FSBL)
    ∧ classify 0x08040000 "STM32N6" = ExecutionMode.FlashChained
    ∧ classify 0x08040000 "STM32F4" = ExecutionMode.Unknown := by
  refine ⟨?_, ?_, by decide, by decide⟩
  · intro a soc
    by_cases h1 : a &&& 0xFFFF0000 = 0x34180000
    · simp [classify, classifySpec, is_fsbl_mode, h1]
    · by_cases h2 : 0x34000000 ≤ a ∧ a < 0x34180000
      · simp [classify, classifySpec, is_fsbl_mode, is_ram_mode, h1, h2]
      · by_cases h3 : soc = "STM32N6" <;>
          simp [classify, classifySpec, is_fsbl_mode, is_ram_mode, h1, h2, h3]
  · intro a soc h1 h2
    unfold classify
    simp [is_fsbl_mode_of_range a h1 h2]

/-- Witness for C1 at a concrete address inside the FSBL window. -/
theorem c1_witness : classify 0x34181234 "STM32F4" = ExecutionMode.FSBL :=
  c1_boot_mode_classification.2.1 0x34181234 "STM32F4" (by norm_num) (by norm_num)

/-- C6 counterexample: the linearization `MAJOR*1000000 + MINOR*1000 + PATCH`
is not monotonic in the (lexicographic) version order — version 1.2000.0
precedes 2.0.0 in the version order yet linearizes strictly higher, and a
scan holding both selects 1.2000.0, not the version-order maximum. -/
theorem c6_counterexample :
    versionLt 1 2000 0 2 0 0
    ∧ ver_num 2 0 0 < ver_num 1 2000 0
    ∧ find_highest_clt_version
        [{ major := 1, minor := 2000, revis := 0, path := "a" },
         { major := 2, minor := 0, revis := 0, path := "b" }]
      = some { major := 1, minor := 2000, revis := 0, path := "a" } :=
  ⟨by decide, by decide, by decide⟩

/-- C6 amended: selection is by maximum of the linearization
`MAJOR*1000000 + MINOR*1000 + PATCH` over all parsed candidates (the
selected entry is a member of the scan with maximal key), the
linearization is monotonic in the version order for versions whose MINOR
and PATCH components are below 1000, and in a scan containing versions
2.1.0, 1.9.9 and 2.0.99 the installation 2.1.0 is selected. -/
theorem c6_version_selection :
    (∀ (installations : List Installation) (i : Installation),
        find_highest_clt_version installations = some i →
        i ∈ installations ∧ ∀ j ∈ installations, instKey j ≤ instKey i)
    ∧ (∀ M1 m1 p1 M2 m2 p2 : Nat, m1 < 1000 → p1 < 1000 → m2 < 1000 → p2 < 1000 →
        versionLt M1 m1 p1 M2 m2 p2 → ver_num M1 m1 p1 < ver_num M2 m2 p2)
    ∧ find_highest_clt_version
        [{ major := 2, minor := 1, revis := 0, path := "a" },
         { major := 1, minor := 9, revis := 9, path := "b" },
         { major := 2, minor := 0, revis := 99, path := "c" }]
      = some { major := 2, minor := 1, revis := 0, path := "a" } := by
  refine ⟨?_, ?_, by decide⟩
  · intro l i h
    cases l with
    | nil => cases h
    | cons a t =>
      unfold find_highest_clt_version at h
      injection h with h
      subst h
      refine ⟨?_, ?_⟩
      · rcases foldl_pickNewer_mem t a with h | h
        · rw [h]; exact List.mem_cons_self _ _
        · exact List.mem_cons_of_mem _ h
      · intro j hj
        rcases List.mem_cons.mp hj with h | h
        · rw [h]; exact instKey_le_foldl t a
        · exact instKey_mem_le_foldl t a j h
  · intro M1 m1 p1 M2 m2 p2 hm1 hp1 hm2 hp2 hlt
    unfold versionLt at hlt
    unfold ver_num
    rcases hlt with h | ⟨hM, h | ⟨hm, hp⟩⟩ <;> omega

/-- Witness for C6: the amended theorem applied to the three-version scan
and to the comparison of 1.9.9 against 2.1.0. -/
theorem c6_witness :
    (({ major := 2, minor := 1, revis := 0, path := "a" } : Installation) ∈
        [{ major := 2, minor := 1, revis := 0, path := "a" },
         { major := 1, minor := 9, revis := 9, path := "b" },
         { major := 2, minor := 0, revis := 99, path := "c" }]
      ∧ ∀ j ∈ [({ major := 2, minor := 1, revis := 0, path := "a" } : Installation),
               { major := 1, minor := 9, revis := 9, path := "b" },
               { major := 2, minor := 0, revis := 99, path := "c" }],
          instKey j ≤ instKey { major := 2, minor := 1, revis := 0, path := "a" })
    ∧ ver_num 1 9 9 < ver_num 2 1 0 :=
  ⟨c6_version_selection.1 _ _ (by decide),
   c6_version_selection.2.1 1 9 9 2 1 0 (by decide) (by decide) (by decide) (by decide)
     (by decide)⟩

/-- C8 counterexample: entry point 0 with SoC family STM32N6 classifies
as FlashChained (the mode that requires the MCUboot artifact), not RAM
and not Unknown, refuting "for every socFamily, the resulting mode is RAM
or Unknown". -/
theorem c8_counterexample :
    get_start_address none = 0
    ∧ classify 0 "STM32N6" = ExecutionMode.FlashChained
    ∧ classify 0 "STM32N6" ≠ ExecutionMode.RAM
    ∧ classify 0 "STM32N6" ≠ ExecutionMode.Unknown := by decide

/-- C8 amended: an unreadable entry point defaults to 0, classification
of 0 raises no error and never yields FSBL or RAM; it yields Unknown for
every SoC family other than STM32N6, and FlashChained for STM32N6. -/
theorem c8_entry_default :
    get_start_address none = 0
    ∧ (∀ soc, soc ≠ "STM32N6" → classify 0 soc = ExecutionMode.Unknown)
    ∧ classify 0 "STM32N6" = ExecutionMode.FlashChained
    ∧ (∀ soc, classify 0 soc ≠ ExecutionMode.FSBL ∧ classify 0 soc ≠ ExecutionMode.RAM) := by
  have hf : is_fsbl_mode 0 = false := by decide
  have hr : is_ram_mode 0 = false := by decide
  refine ⟨rfl, ?_, by decide, ?_⟩
  · intro soc h
    simp [classify, hf, hr, h]
  · intro soc
    by_cases h : soc = "STM32N6" <;> simp [classify, hf, hr, h]

/-- Witness for C8 with the SoC family STM32F4. -/
theorem c8_witness :
    get_start_address none = 0 ∧ classify 0 "STM32F4" = ExecutionMode.Unknown :=
  ⟨c8_entry_default.1, c8_entry_default.2.1 "STM32F4" (by decide)⟩

/-- C10: the `--two-boot-stage` flag and the `--mcuboot-offset` value
never influence the constructed commands — two invocations identical
except in those two stored fields produce identical results (server
argument list, client argument list and error alike) for every
filesystem, toolchain path, SoC, entry address and command. -/
theorem c10_unused_options (fs which : String → Bool) (soc : String) (start_address : Nat)
    (gdbserver_path cubeprg_path : String) (cfg : RunnerConfig) (st : RunnerState)
    (b1 b2 : Bool) (o1 o2 : Option String) (command : Command) :
    do_attach_debug_debugserver fs which soc start_address gdbserver_path cubeprg_path cfg
        { st with two_boot_stage := b1, mcuboot_offset := o1 } command
      = do_attach_debug_debugserver fs which soc start_address gdbserver_path cubeprg_path cfg
        { st with two_boot_stage := b2, mcuboot_offset := o2 } command := rfl

/-- C3: for the `debugserver` command (ServerOnly intent) the produced
plan never includes debugger-client commands, for every execution mode
(every entry address, SoC family, filesystem and configuration): an
accepted plan carries `gdb_cmd = none`, so only the server process is
started with its argument list. -/
theorem c3_debugserver_no_client (fs which : String → Bool) (soc : String)
    (start_address : Nat) (gp cp : String) (cfg : RunnerConfig) (st : RunnerState) (p : Plan)
    (h : do_attach_debug_debugserver fs which soc start_address gp cp cfg st
        Command.debugserver = Except.ok p) :
    p.gdb_cmd = none := by
  obtain ⟨mf, ga, ext, _, _, _, hrest⟩ := do_ok_shape _ _ _ _ _ _ _ _ _ _ h
  rcases hrest with ⟨_, hn⟩ | ⟨hne, _⟩
  · exact hn
  · exact absurd rfl hne

/-- Witness for C3: a concrete debugserver invocation produces a plan and
that plan has no client command. -/
theorem c3_witness :
    Plan.gdb_cmd
      { gdbserver_cmd := ["GS", "--stm32cubeprogrammer-path", "CP", "--port-number",
          "61234", "--apid", "0", "--halt", "--swd", "--initialize-reset"],
        gdb_cmd := none }
      = none :=
  c3_debugserver_no_client fsAll fsAll "STM32F4" 0x08000000 "GS" "CP" cfgDefault stDefault
    { gdbserver_cmd := ["GS", "--stm32cubeprogrammer-path", "CP", "--port-number",
        "61234", "--apid", "0", "--halt", "--swd", "--initialize-reset"],
      gdb_cmd := none }
    (by decide)

/-- C5: for the `attach` command (Attach intent), for every execution
mode (every entry address and SoC family) and every configuration on the
success path, the intent branch contributes `--attach` to the server
flags — never `--initialize-reset` — and the debugger client only
connects to the server: its `-ex` command list is exactly the connect
command, with no load command. -/
theorem c5_attach_connect_only (fs which : String → Bool) (soc : String)
    (start_address : Nat) (gp cp : String) (cfg : RunnerConfig) (st : RunnerState)
    (extFlags : List String) (gdb : String)
    (hext : extloadFlags fs cp st = Except.ok extFlags)
    (hw1 : which gp = true) (hgdb : cfg.gdb = some gdb) (hw2 : which gdb = true) :
    do_attach_debug_debugserver fs which soc start_address gp cp cfg st Command.attach
      = Except.ok
          { gdbserver_cmd :=
              baseServerCmd gp cp st ++ ["--attach"] ++ serialFlags st ++ extFlags,
            gdb_cmd := some (gdb :: ["-ex", targetRemoteCmd st.gdb_port, cfg.elf_file]) }
    ∧ "--attach" ∈ baseServerCmd gp cp st ++ ["--attach"] ++ serialFlags st ++ extFlags
    ∧ exCommands ["-ex", targetRemoteCmd st.gdb_port, cfg.elf_file]
      = [targetRemoteCmd st.gdb_port] := by
  refine ⟨?_, by simp, ?_⟩
  · have hb : branchCmds fs soc start_address cfg st Command.attach
        = Except.ok (["--attach"], ["-ex", targetRemoteCmd st.gdb_port, cfg.elf_file]) := by
      unfold branchCmds
      simp
    unfold do_attach_debug_debugserver
    rw [hb]
    dsimp only
    rw [hext]
    dsimp only
    unfold finishPlan
    rw [if_pos hw1, if_neg (by decide : ¬ Command.attach = Command.debugserver), hgdb]
    dsimp only
    rw [if_pos hw2]
  · rw [exCommands_cons_ex, exCommands_single]

/-- Witness for C5 at a concrete FSBL-mode attach invocation. -/
theorem c5_witness :
    do_attach_debug_debugserver fsAll fsAll "STM32N6" 0x34185000 "GS" "CP" cfgDefault
        stDefault Command.attach
      = Except.ok
          { gdbserver_cmd := baseServerCmd "GS" "CP" stDefault ++ ["--attach"]
              ++ serialFlags stDefault ++ [],
            gdb_cmd := some ("gdb" :: ["-ex", targetRemoteCmd stDefault.gdb_port,
              cfgDefault.elf_file]) }
    ∧ "--attach" ∈ baseServerCmd "GS" "CP" stDefault ++ ["--attach"]
        ++ serialFlags stDefault ++ []
    ∧ exCommands ["-ex", targetRemoteCmd stDefault.gdb_port, cfgDefault.elf_file]
      = [targetRemoteCmd stDefault.gdb_port] :=
  c5_attach_connect_only fsAll fsAll "STM32N6" 0x34185000 "GS" "CP" cfgDefault stDefault
    [] "gdb" (by decide) rfl rfl rfl

/-- C2 counterexample: in the FlashChained debug scenario the client
commands attach the application symbols with a bare
`add-symbol-file app.elf` — the stored MCUboot image offset (default
`0x08040000`) does not appear anywhere in the command, refuting
"attaches the application's own symbol table at its known flash offset
(the MCUboot image offset, default 0x08040000)". -/
theorem c2_counterexample :
    mcubootOffsetValue stDefault.mcuboot_offset = "0x08040000"
    ∧ do_attach_debug_debugserver fsMcuboot fsAll "STM32N6" 0x08040000 "GS" "CP" cfgDefault
        stDefault Command.debug
      = Except.ok
          { gdbserver_cmd := ["GS", "--stm32cubeprogrammer-path", "CP", "--port-number",
              "61234", "--apid", "0", "--halt", "--swd", "--attach"],
            gdb_cmd := some ["gdb", "-ex", "target remote :61234", "-ex", "load",
              "-ex", "hbreak boot_go", "-ex", "continue", "-ex", "set confirm off",
              "-ex", "add-symbol-file app.elf", "-ex", "set confirm on",
              "-ex", "break main", "-ex", "continue", "build/mcuboot/zephyr/zephyr.elf"] }
    ∧ "add-symbol-file app.elf 0x08040000" ∉ (["gdb", "-ex", "target remote :61234",
        "-ex", "load", "-ex", "hbreak boot_go", "-ex", "continue", "-ex",
        "set confirm off", "-ex", "add-symbol-file app.elf", "-ex", "set confirm on",
        "-ex", "break main", "-ex", "continue",
        "build/mcuboot/zephyr/zephyr.elf"] : List String)
    ∧ "add-symbol-file app.elf" ∈ (["gdb", "-ex", "target remote :61234",
        "-ex", "load", "-ex", "hbreak boot_go", "-ex", "continue", "-ex",
        "set confirm off", "-ex", "add-symbol-file app.elf", "-ex", "set confirm on",
        "-ex", "break main", "-ex", "continue",
        "build/mcuboot/zephyr/zephyr.elf"] : List String) := by decide

/-- C2 amended: for mode FlashChained with the `debug` (DebugNew) intent,
after halting at the bootloader hand-off breakpoint (`hbreak boot_go`,
`continue`) the debugger commands attach the application's own symbol
table with a bare `add-symbol-file` carrying no offset argument (the
symbols land at their linked addresses; the stored MCUboot offset is not
used), then set a breakpoint at the application entry symbol `main` and
continue; no code is loaded after the hand-off halt. -/
theorem c2_flashchained_commands (fs which : String → Bool) (soc : String)
    (start_address : Nat) (gp cp : String) (cfg : RunnerConfig) (st : RunnerState)
    (mcuboot_elf : String) (extFlags : List String) (gdb : String)
    (hf : is_fsbl_mode start_address = false) (hr : is_ram_mode start_address = false)
    (hsoc : soc = "STM32N6")
    (hm : find_mcuboot_elf fs cfg.build_dir = Except.ok mcuboot_elf)
    (hext : extloadFlags fs cp st = Except.ok extFlags)
    (hw1 : which gp = true) (hgdb : cfg.gdb = some gdb) (hw2 : which gdb = true) :
    do_attach_debug_debugserver fs which soc start_address gp cp cfg st Command.debug
      = Except.ok
          { gdbserver_cmd :=
              baseServerCmd gp cp st ++ ["--attach"] ++ serialFlags st ++ extFlags,
            gdb_cmd := some (gdb :: mcubootGdbArgs st.gdb_port cfg.elf_file mcuboot_elf) }
    ∧ exCommands (mcubootGdbArgs st.gdb_port cfg.elf_file mcuboot_elf)
      = [targetRemoteCmd st.gdb_port, "load", "hbreak boot_go", "continue",
         "set confirm off", "add-symbol-file " ++ cfg.elf_file, "set confirm on",
         "break main", "continue"] := by
  constructor
  · have hb : branchCmds fs soc start_address cfg st Command.debug
        = Except.ok (["--attach"], mcubootGdbArgs st.gdb_port cfg.elf_file mcuboot_elf) := by
      unfold branchCmds
      rw [if_neg (by decide : ¬ Command.debug = Command.attach)]
      rw [if_pos (by simp [hf, hr, hsoc])]
      rw [hm]
    unfold do_attach_debug_debugserver
    rw [hb]
    dsimp only
    rw [hext]
    dsimp only
    unfold finishPlan
    rw [if_pos hw1, if_neg (by decide : ¬ Command.debug = Command.debugserver), hgdb]
    dsimp only
    rw [if_pos hw2]
  · unfold mcubootGdbArgs
    repeat rw [exCommands_cons_ex]
    rw [exCommands_single]

/-- Witness for C2 at a concrete chained-boot debug invocation. -/
theorem c2_witness :
    do_attach_debug_debugserver fsMcuboot fsAll "STM32N6" 0 "GS" "CP" cfgDefault
        stDefault Command.debug
      = Except.ok
          { gdbserver_cmd := baseServerCmd "GS" "CP" stDefault ++ ["--attach"]
              ++ serialFlags stDefault ++ [],
            gdb_cmd := some ("gdb" :: mcubootGdbArgs stDefault.gdb_port cfgDefault.elf_file
              "build/mcuboot/zephyr/zephyr.elf") }
    ∧ exCommands (mcubootGdbArgs stDefault.gdb_port cfgDefault.elf_file
        "build/mcuboot/zephyr/zephyr.elf")
      = [targetRemoteCmd stDefault.gdb_port, "load", "hbreak boot_go", "continue",
         "set confirm off", "add-symbol-file " ++ cfgDefault.elf_file, "set confirm on",
         "break main", "continue"] :=
  c2_flashchained_commands fsMcuboot fsAll "STM32N6" 0 "GS" "CP" cfgDefault stDefault
    "build/mcuboot/zephyr/zephyr.elf" [] "gdb" (by decide) (by decide) rfl (by decide)
    (by decide) rfl rfl rfl

/-- C4 counterexample: entry point 0x34185000 classifies as FSBL and the
attach-intent invocation includes `--attach` among the server flags, but
the debugger command list is exactly the single connect command — there
is no load directive of any form, refuting the claimed exact ordered
list ["connect", "load"]. -/
theorem c4_counterexample :
    classify 0x34185000 "unknown" = ExecutionMode.FSBL
    ∧ do_attach_debug_debugserver fsAll fsAll "unknown" 0x34185000 "GS" "CP" cfgDefault
        stDefault Command.attach
      = Except.ok
          { gdbserver_cmd := ["GS", "--stm32cubeprogrammer-path", "CP", "--port-number",
              "61234", "--apid", "0", "--halt", "--swd", "--attach"],
            gdb_cmd := some ["gdb", "-ex", "target remote :61234", "app.elf"] }
    ∧ exCommands ["gdb", "-ex", "target remote :61234", "app.elf"]
      = ["target remote :61234"]
    ∧ exCommands ["gdb", "-ex", "target remote :61234", "app.elf"]
      ≠ ["target remote :61234", "load app.elf"]
    ∧ "load" ∉ exCommands ["gdb", "-ex", "target remote :61234", "app.elf"]
    ∧ "load app.elf" ∉ exCommands ["gdb", "-ex", "target remote :61234", "app.elf"] := by
  decide

/-- C4 amended: for entry point 0x34185000 (mode FSBL) with attach
intent, the server flag list includes `--attach` and the debugger command
list is exactly the ordered singleton [connect] — the command
`target remote :61234` — and nothing else; per the Attach intent there is
no load command. -/
theorem c4_fsbl_attach_scenario :
    classify 0x34185000 "unknown" = ExecutionMode.FSBL
    ∧ do_attach_debug_debugserver fsAll fsAll "unknown" 0x34185000 "GS" "CP" cfgDefault
        stDefault Command.attach
      = Except.ok
          { gdbserver_cmd := ["GS", "--stm32cubeprogrammer-path", "CP", "--port-number",
              "61234", "--apid", "0", "--halt", "--swd", "--attach"],
            gdb_cmd := some ["gdb", "-ex", "target remote :61234", "app.elf"] }
    ∧ "--attach" ∈ (["GS", "--stm32cubeprogrammer-path", "CP", "--port-number", "61234",
        "--apid", "0", "--halt", "--swd", "--attach"] : List String)
    ∧ exCommands ["gdb", "-ex", "target remote :61234", "app.elf"]
      = [targetRemoteCmd 61234] := by decide

/-- C7 counterexample: with an external loader configured and its path
absent, a FlashChained debug invocation whose MCUboot ELF is also absent
aborts with `MCUBootElfNotFound` — not with the external-loader error —
so the claimed error identity does not hold for every mode and intent
(the operation still fails before any process is spawned). -/
theorem c7_counterexample :
    RunnerState.external_loader { stDefault with external_loader := some "MX25.stldr" }
        = some "MX25.stldr"
    ∧ fsNone ("CP" ++ "/ExternalLoader/" ++ "MX25.stldr") = false
    ∧ do_attach_debug_debugserver fsNone fsAll "STM32N6" 0x08040000 "GS" "CP" cfgDefault
        { stDefault with external_loader := some "MX25.stldr" } Command.debug
      = Except.error RunnerError.MCUBootElfNotFound
    ∧ (Except.error RunnerError.MCUBootElfNotFound : Except RunnerError Plan)
      ≠ Except.error (RunnerError.ExternalLoaderNotFound "MX25.stldr") := by decide

/-- C7 amended: a configured external loader whose path is missing always
aborts the operation before any process is spawned (no plan is ever
produced), for every mode and intent; the error is
`ExternalLoaderNotFound` whenever the FlashChained branch's MCUboot
lookup does not fail first (in particular for every Attach intent, every
FSBL/RAM/Unknown mode, and every chained run whose MCUboot ELF exists). -/
theorem c7_external_loader_check (fs which : String → Bool) (soc : String)
    (start_address : Nat) (gp cp : String) (cfg : RunnerConfig) (st : RunnerState)
    (command : Command) (name : String)
    (hname : st.external_loader = some name) (hne : name ≠ "")
    (hmiss : fs (cp ++ "/ExternalLoader/" ++ name) = false) :
    (∀ p, do_attach_debug_debugserver fs which soc start_address gp cp cfg st command
        ≠ Except.ok p)
    ∧ ((command = Command.attach
        ∨ is_fsbl_mode start_address = true
        ∨ is_ram_mode start_address = true
        ∨ soc ≠ "STM32N6"
        ∨ ∃ m, find_mcuboot_elf fs cfg.build_dir = Except.ok m) →
      do_attach_debug_debugserver fs which soc start_address gp cp cfg st command
        = Except.error (RunnerError.ExternalLoaderNotFound name)) := by
  have he := extloadFlags_error fs cp st name hname hne hmiss
  constructor
  · intro p hp
    obtain ⟨mf, ga, ext, hb, hex, _⟩ := do_ok_shape _ _ _ _ _ _ _ _ _ _ hp
    rw [he] at hex
    cases hex
  · intro hcond
    obtain ⟨pr, hb⟩ := branchCmds_isOk fs soc start_address cfg st command hcond
    obtain ⟨mf, ga⟩ := pr
    unfold do_attach_debug_debugserver
    rw [hb]
    dsimp only
    rw [he]

/-- Witness for C7: a concrete attach invocation with a configured but
missing external loader fails with the external-loader error. -/
theorem c7_witness :
    do_attach_debug_debugserver fsNone fsAll "STM32F4" 0 "GS" "CP" cfgDefault
        { stDefault with external_loader := some "MX25.stldr" } Command.attach
      = Except.error (RunnerError.ExternalLoaderNotFound "MX25.stldr") :=
  (c7_external_loader_check fsNone fsAll "STM32F4" 0 "GS" "CP" cfgDefault
      { stDefault with external_loader := some "MX25.stldr" } Command.attach "MX25.stldr"
      rfl (by decide) rfl).2 (Or.inl rfl)

/-- C9 counterexample: with SWD disabled (`--no-swd`) the server argument
list of a successful invocation contains neither `--swd` nor any JTAG
flag — no target-interface flag is present at all — refuting "always
contains a target-interface flag (SWD or JTAG)". -/
theorem c9_counterexample :
    do_attach_debug_debugserver fsAll fsAll "STM32F4" 0x08000000 "GS" "CP" cfgDefault
        { stDefault with swd := false } Command.debug
      = Except.ok
          { gdbserver_cmd := ["GS", "--stm32cubeprogrammer-path", "CP", "--port-number",
              "61234", "--apid", "0", "--halt", "--initialize-reset"],
            gdb_cmd := some ["gdb", "-ex", "target remote :61234", "app.elf",
              "-ex", "load app.elf"] }
    ∧ "--swd" ∉ (["GS", "--stm32cubeprogrammer-path", "CP", "--port-number", "61234",
        "--apid", "0", "--halt", "--initialize-reset"] : List String)
    ∧ "--jtag" ∉ (["GS", "--stm32cubeprogrammer-path", "CP", "--port-number", "61234",
        "--apid", "0", "--halt", "--initialize-reset"] : List String) := by decide

/-- C9 amended: every successfully produced server argument list
contains the port-number flag with its value, the access-point flag with
its value, and the halt flag, for every mode and intent; the SWD
interface flag is present whenever SWD mode is enabled, and no interface
flag at all is emitted when it is disabled (see the counterexample). -/
theorem c9_server_flags (fs which : String → Bool) (soc : String) (start_address : Nat)
    (gp cp : String) (cfg : RunnerConfig) (st : RunnerState) (command : Command) (p : Plan)
    (h : do_attach_debug_debugserver fs which soc start_address gp cp cfg st command
        = Except.ok p) :
    "--port-number" ∈ p.gdbserver_cmd
    ∧ toString st.gdb_port ∈ p.gdbserver_cmd
    ∧ "--apid" ∈ p.gdbserver_cmd
    ∧ toString st.ap_id ∈ p.gdbserver_cmd
    ∧ "--halt" ∈ p.gdbserver_cmd
    ∧ (st.swd = true → "--swd" ∈ p.gdbserver_cmd) := by
  obtain ⟨mf, ga, ext, _, _, hcmd, _⟩ := do_ok_shape _ _ _ _ _ _ _ _ _ _ h
  rw [hcmd]
  unfold baseServerCmd
  refine ⟨by simp, by simp, by simp, by simp, by simp, fun hs => by simp [hs]⟩

/-- Witness for C9 at a concrete attach invocation. -/
theorem c9_witness :
    "--port-number" ∈ (["GS", "--stm32cubeprogrammer-path", "CP", "--port-number",
        "61234", "--apid", "0", "--halt", "--swd", "--attach"] : List String)
    ∧ "61234" ∈ (["GS", "--stm32cubeprogrammer-path", "CP", "--port-number",
        "61234", "--apid", "0", "--halt", "--swd", "--attach"] : List String)
    ∧ "--apid" ∈ (["GS", "--stm32cubeprogrammer-path", "CP", "--port-number",
        "61234", "--apid", "0", "--halt", "--swd", "--attach"] : List String)
    ∧ "0" ∈ (["GS", "--stm32cubeprogrammer-path", "CP", "--port-number",
        "61234", "--apid", "0", "--halt", "--swd", "--attach"] : List String)
    ∧ "--halt" ∈ (["GS", "--stm32cubeprogrammer-path", "CP", "--port-number",
        "61234", "--apid", "0", "--halt", "--swd", "--attach"] : List String)
    ∧ "--swd" ∈ (["GS", "--stm32cubeprogrammer-path", "CP", "--port-number",
        "61234", "--apid", "0", "--halt", "--swd", "--attach"] : List String) := by
  have h := c9_server_flags fsAll fsAll "STM32F4" 0 "GS" "CP" cfgDefault stDefault
      Command.attach
      { gdbserver_cmd := ["GS", "--stm32cubeprogrammer-path", "CP", "--port-number",
          "61234", "--apid", "0", "--halt", "--swd", "--attach"],
        gdb_cmd := some ["gdb", "-ex", "target remote :61234", "app.elf"] } (by decide)
  exact ⟨h.1, h.2.1, h.2.2.1, h.2.2.2.1, h.2.2.2.2.1, h.2.2.2.2.2 rfl⟩

end StlinkGdbServer
